import Mathlib

/-!
Shallow embedding of the rating-grid aggregation client (`app/tmdb_api.py`).

The two HTTP clients (`TMDbAPI`, `OMDbAPI`) are modelled as pure functions
parameterised by oracles: each oracle maps the parameters of an outbound
request to the provider's response, with `Except.error ()` standing for a
transport failure (a raised `requests` exception).  Python dictionaries
returned by the providers are modelled as structures whose fields are
`Option`-valued (`none` = key absent); `dict.get` is field access,
`dict[k]` raises `KeyError` on `none`.  Python floats are modelled as `ℚ`.
String primitives (`split`, `lower`, number parsing) are modelled on the
character list of the string.
-/

namespace RatingGrid

/-- Python truthiness of an optional string: `None` and `""` are falsy. -/
def truthyStr (o : Option String) : Bool :=
  match o with
  | none => false
  | some s => !s.isEmpty

/-- `str.lower()` (ASCII model). -/
def pyLower (s : String) : String := ⟨s.data.map Char.toLower⟩

/-- `str.capitalize()` (ASCII model): first char upper, rest lower. -/
def pyCapitalize (w : String) : String :=
  match w.data with
  | [] => ""
  | c :: cs => ⟨c.toUpper :: cs.map Char.toLower⟩

/-- `str.split(sep)` for a single-character separator, over characters:
`""` yields `[""]`, and adjacent separators yield empty chunks. -/
def splitOnChar (c : Char) : List Char → List (List Char)
  | [] => [[]]
  | x :: xs =>
    if x = c then [] :: splitOnChar c xs
    else
      match splitOnChar c xs with
      | [] => [[x]]
      | h :: t => (x :: h) :: t

/-- Split on a character class, over characters (chunks between matches). -/
def splitOnPred (p : Char → Bool) : List Char → List (List Char)
  | [] => [[]]
  | x :: xs =>
    if p x then [] :: splitOnPred p xs
    else
      match splitOnPred p xs with
      | [] => [[x]]
      | h :: t => (x :: h) :: t

/-- `str.split()` with no argument: split on whitespace, dropping empty
chunks. -/
def pySplitWs (s : String) : List String :=
  ((splitOnPred Char.isWhitespace s.data).filter (fun w => !w.isEmpty)).map
    (fun w => ⟨w⟩)

/-- `" ".join(ws)`. -/
def joinSpace : List String → String
  | [] => ""
  | [w] => w
  | w :: rest => w ++ " " ++ joinSpace rest

/-- `" ".join(word.capitalize() for word in s.split())` (trending display
name). -/
def titleCaseName (s : String) : String :=
  joinSpace ((pySplitWs s).map pyCapitalize)

/-- The numeric value of a run of decimal digits. -/
def digitsNum (l : List Char) : Nat :=
  l.foldl (fun a c => a * 10 + (c.toNat - 48)) 0

/-- The value of a non-empty all-digit run; `none` otherwise. -/
def digitsVal? (l : List Char) : Option Nat :=
  if !l.isEmpty && l.all Char.isDigit then some (digitsNum l) else none

/-- A calendar date, as `datetime.date` (year, month, day). -/
structure Date where
  year : Nat
  month : Nat
  day : Nat
deriving DecidableEq

/-- `datetime.date` comparison is lexicographic on (year, month, day). -/
def Date.ltb (a b : Date) : Bool :=
  a.year < b.year ∨ (a.year = b.year ∧
    (a.month < b.month ∨ (a.month = b.month ∧ a.day < b.day)))

/-- Gregorian leap year, as `datetime`. -/
def isLeapYear (y : Nat) : Bool :=
  y % 4 = 0 ∧ (y % 100 ≠ 0 ∨ y % 400 = 0)

/-- Number of days in a month, as validated by the `datetime.date`
constructor. -/
def daysInMonth (y m : Nat) : Nat :=
  if m = 2 then (if isLeapYear y then 29 else 28)
  else if m = 4 ∨ m = 6 ∨ m = 9 ∨ m = 11 then 30
  else 31

/-- `datetime.strptime(s, "%Y-%m-%d").date()`: `%Y` is exactly four digits,
`%m`/`%d` are one or two digits, and the resulting (year, month, day) must be
a valid `datetime.date` (year ≥ 1, month 1..12, day within the month).
Returns `none` where Python raises `ValueError`. -/
def parseYMD (s : String) : Option Date :=
  match splitOnChar '-' s.data with
  | [ys, ms, ds] =>
    match digitsVal? ys, digitsVal? ms, digitsVal? ds with
    | some y, some m, some d =>
      if ys.length = 4 ∧ ms.length ≤ 2 ∧ ds.length ≤ 2 ∧
         1 ≤ y ∧ 1 ≤ m ∧ m ≤ 12 ∧ 1 ≤ d ∧ d ≤ daysInMonth y m
      then some ⟨y, m, d⟩ else none
    | _, _, _ => none
  | _ => none

/-- An entry of a season's `episodes` list as returned by the primary
provider. -/
structure RawEpisode where
  episode_number : Option Int
  name : Option String
  vote_average : Option ℚ
  vote_count : Option Int
  air_date : Option String
deriving DecidableEq

/-- One entry of the produced episode grid (`episode_data` in
`get_all_episodes_ratings`). -/
structure EpisodeData where
  episode : Option Int
  title : Option String
  vote_average : Option ℚ
  vote_count : Option Int
  air_date : Option String
  unreleased : Bool
deriving DecidableEq

/-- The `is_unreleased` computation of `get_all_episodes_ratings`: falsy
air date or unparseable air date or strictly-future air date. -/
def isUnreleased (today : Date) (air_date : Option String) : Bool :=
  if truthyStr air_date then
    match parseYMD (air_date.getD "") with
    | some d => Date.ltb today d
    | none => true
  else
    true

/-- The per-episode body of the grid loop in `get_all_episodes_ratings`. -/
def processEpisode (today : Date) (e : RawEpisode) : EpisodeData :=
  let u := isUnreleased today e.air_date
  { episode := e.episode_number
    title := e.name
    vote_average := if u then none else e.vote_average
    vote_count := if u then none else e.vote_count
    air_date := e.air_date
    unreleased := u }

/-- Python exceptions that the client code itself can raise. -/
inductive PyErr where
  | valueError (msg : String)
  | keyError (key : String)
  | transport
deriving DecidableEq

/-- The single-result query parameters of the secondary provider: a `t=`
(title) or `i=` (IMDb id) lookup; `type=series&plot=short&tomatoes=true` are
fixed. -/
inductive OmdbQuery where
  | byTitle (t : String)
  | byId (i : String)
deriving DecidableEq

/-- One element of the secondary provider's `Search` array. -/
structure OmdbSearchResult where
  imdbID : Option String
  Title : Option String
deriving DecidableEq

/-- The secondary provider's search response body. `Search` is read with
`.get("Search", [])`, so an absent key is modelled as `[]`. -/
structure OmdbSearchRaw where
  Response : Option String
  Search : List OmdbSearchResult
deriving DecidableEq

/-- One element of the secondary provider's `Ratings` array. -/
structure RatingEntry where
  Source : Option String
  Value : Option String
deriving DecidableEq

/-- The secondary provider's detail response body (fields the client reads). -/
structure OmdbRaw where
  Response : Option String
  Title : Option String
  Year : Option String
  imdbRating : Option String
  imdbVotes : Option String
  Metascore : Option String
  imdbID : Option String
  Ratings : List RatingEntry
deriving DecidableEq

/-- `OMDbAPI.search_series`: transport failures propagate; a `Response ==
"False"` body yields `[]`, otherwise the `Search` list. -/
def search_series (title : String) (year : Option Int)
    (searchResp : String × Option Int → Except Unit OmdbSearchRaw) :
    Except PyErr (List OmdbSearchResult) :=
  match searchResp (title, year) with
  | .error _ => .error .transport
  | .ok data =>
    if data.Response = some "False" then .ok []
    else .ok data.Search

/-- Shared response handling of `OMDbAPI.get_series_details`: propagate
transport failures; map a `Response == "False"` body to the empty dict
(`none`); otherwise return the body. -/
def omdbRespond (r : Except Unit OmdbRaw) : Except PyErr (Option OmdbRaw) :=
  match r with
  | .error _ => .error .transport
  | .ok data =>
    if data.Response = some "False" then .ok none
    else .ok (some data)

/-- `OMDbAPI.get_series_details`: raises `ValueError` when both arguments are
falsy; otherwise queries by `t=` when the title is truthy, else by `i=`. -/
def get_series_details (title imdb_id : Option String)
    (fetch : OmdbQuery → Except Unit OmdbRaw) :
    Except PyErr (Option OmdbRaw) :=
  if !truthyStr title && !truthyStr imdb_id then
    .error (.valueError "Either title or imdb_id must be provided.")
  else if truthyStr title then
    omdbRespond (fetch (.byTitle (title.getD "")))
  else
    omdbRespond (fetch (.byId (imdb_id.getD "")))

/-- Strip one leading sign character, returning the sign factor and the
rest. -/
def stripSign (l : List Char) : Int × List Char :=
  match l with
  | '-' :: rest => (-1, rest)
  | '+' :: rest => (1, rest)
  | _ => (1, l)

/-- `float(s)` on the plain decimal strings the secondary provider sends
(optional sign, digits, optional fractional part); `none` where `float`
raises `ValueError`. -/
def pyFloat? (s : String) : Option ℚ :=
  let sb := stripSign s.data
  match splitOnChar '.' sb.2 with
  | [w] => (digitsVal? w).map (fun n => (sb.1 : ℚ) * n)
  | [w, f] =>
    if (!w.isEmpty || !f.isEmpty) && w.all Char.isDigit && f.all Char.isDigit
    then some ((sb.1 : ℚ) *
      ((digitsNum w : ℚ) + (digitsNum f : ℚ) / 10 ^ f.length))
    else none
  | _ => none

/-- `int(s)` on plain decimal strings (optional sign, digits); `none` where
`int` raises `ValueError`. -/
def pyInt? (s : String) : Option Int :=
  let sb := stripSign s.data
  (digitsVal? sb.2).map (fun n => sb.1 * n)

/-- The block the caller receives from `OMDbAPI.get_ratings`; the
`original_query`/`corrected_title` keys are only present (`some`) when a typo
correction was recorded. -/
structure RatingsBlock where
  title : Option String
  year : Option String
  imdb_rating : Option ℚ
  imdb_votes : Option String
  metascore : Option Int
  imdb_id : Option String
  rotten_tomatoes : Option String
  original_query : Option String
  corrected_title : Option String
deriving DecidableEq

/-- The Rotten Tomatoes scan of `get_ratings`: the `Value` of the first entry
of `Ratings` whose `Source` is `"Rotten Tomatoes"`. -/
def rtFromRatings (l : List RatingEntry) : Option String :=
  match l.find? (fun r => r.Source == some "Rotten Tomatoes") with
  | some r => r.Value
  | none => none

/-- `imdb_rating` field: `float(data.get("imdbRating", 0)) if
data.get("imdbRating") != "N/A" else None`; `float` may raise. -/
def imdbRatingField (v : Option String) : Except PyErr (Option ℚ) :=
  if v == some "N/A" then .ok none
  else match v with
    | none => .ok (some 0)
    | some s =>
      match pyFloat? s with
      | some q => .ok (some q)
      | none => .error (.valueError "could not convert string to float")

/-- `metascore` field: `int(data.get("Metascore", 0)) if
data.get("Metascore") != "N/A" else None`; `int` may raise. -/
def metascoreField (v : Option String) : Except PyErr (Option Int) :=
  if v == some "N/A" then .ok none
  else match v with
    | none => .ok (some 0)
    | some s =>
      match pyInt? s with
      | some n => .ok (some n)
      | none => .error (.valueError "invalid literal for int")

/-- The `ratings` dict literal of `get_ratings`, before the typo-correction
keys. -/
def baseBlock (data : OmdbRaw) (ir : Option ℚ) (ms : Option Int) :
    RatingsBlock :=
  { title := data.Title
    year := data.Year
    imdb_rating := ir
    imdb_votes := data.imdbVotes
    metascore := ms
    imdb_id := data.imdbID
    rotten_tomatoes := rtFromRatings data.Ratings
    original_query := none
    corrected_title := none }

/-- The typo-correction tail of `get_ratings`: the two keys are added only
when both titles are truthy and differ after `.lower()`. -/
def addCorrection (base : RatingsBlock)
    (original_title corrected_title : Option String) : RatingsBlock :=
  if truthyStr original_title && truthyStr corrected_title &&
      pyLower (original_title.getD "") != pyLower (corrected_title.getD "")
  then
    { base with original_query := original_title
                corrected_title := corrected_title }
  else base

/-- The `ratings` dict built at the end of `get_ratings` from a non-empty
detail record, including the conditional typo-correction keys. -/
def mkRatings (data : OmdbRaw) (original_title corrected_title : Option String) :
    Except PyErr RatingsBlock := do
  let ir ← imdbRatingField data.imdbRating
  let ms ← metascoreField data.Metascore
  pure (addCorrection (baseBlock data ir ms) original_title corrected_title)

/-- The direct `search_results[0]["imdbID"]` / `["Title"]` key accesses of
`get_ratings` on the first search hit: the corrected (id, title) pair, or a
`KeyError`. -/
def correctionOf (r : OmdbSearchResult) :
    Except PyErr (Option String × Option String) :=
  match r.imdbID, r.Title with
  | none, _ => .error (.keyError "imdbID")
  | some _, none => .error (.keyError "Title")
  | some iid, some ct => .ok (some iid, some ct)

/-- The search step of `get_ratings`: an empty search keeps the original
identifiers, a hit switches to the hit's id and records its title. -/
def correctionStep (imdb_id : Option String) :
    List OmdbSearchResult → Except PyErr (Option String × Option String)
  | [] => .ok (imdb_id, none)
  | r :: _ => correctionOf r

/-- The tail of `get_ratings`: an empty detail record yields the empty dict,
otherwise the ratings block is built. -/
def blockFromData (original_title corrected_title : Option String) :
    Option OmdbRaw → Except PyErr (Option RatingsBlock)
  | none => .ok none
  | some data => do
    let b ← mkRatings data original_title corrected_title
    pure (some b)

/-- The resolution tail of `get_ratings`: fetch details with
`(title if not imdb_id else None, imdb_id)` and build the block. -/
def ratingsFinish (original_title imdb_id corrected_title : Option String)
    (fetch : OmdbQuery → Except Unit OmdbRaw) :
    Except PyErr (Option RatingsBlock) := do
  let series_data ← get_series_details
    (if !truthyStr imdb_id then original_title else none) imdb_id fetch
  blockFromData original_title corrected_title series_data

/-- `OMDbAPI.get_ratings`: when only a (truthy) title is given, search first;
a non-empty search result switches resolution to its `imdbID` and remembers
its `Title` as the corrected title.  Then fetch details by whichever
identifier is authoritative and build the block. -/
def get_ratings (title imdb_id : Option String)
    (searchResp : String × Option Int → Except Unit OmdbSearchRaw)
    (fetch : OmdbQuery → Except Unit OmdbRaw) :
    Except PyErr (Option RatingsBlock) :=
  if truthyStr title && !truthyStr imdb_id then do
    let search_results ← search_series (title.getD "") none searchResp
    let step ← correctionStep imdb_id search_results
    ratingsFinish title step.1 step.2 fetch
  else
    ratingsFinish title imdb_id none fetch

/-- One element of the primary provider's search `results` (the field read). -/
structure TvSearchResult where
  id : Option Int
deriving DecidableEq

/-- The primary provider's search response; `results` is read with
`.get("results", [])`, so an absent key is modelled as `[]`. -/
structure TvSearchResp where
  results : List TvSearchResult
deriving DecidableEq

/-- A `genres` entry (the field read). -/
structure GenreRaw where
  name : Option String
deriving DecidableEq

/-- A `networks` entry (the field read). -/
structure NetworkRaw where
  name : Option String
deriving DecidableEq

/-- A `seasons` entry of the detail response (the field read). -/
structure SeasonRaw where
  season_number : Option Int
deriving DecidableEq

/-- The primary provider's `/tv/{id}` response body (fields the client
reads). -/
structure TvDetailsRaw where
  name : Option String
  original_name : Option String
  first_air_date : Option String
  last_air_date : Option String
  number_of_seasons : Option Int
  number_of_episodes : Option Int
  vote_average : Option ℚ
  vote_count : Option Int
  overview : Option String
  genres : List GenreRaw
  networks : List NetworkRaw
  poster_path : Option String
  backdrop_path : Option String
  seasons : List SeasonRaw
deriving DecidableEq

/-- The `/tv/{id}/external_ids` response body (the field read). -/
structure ExternalIdsRaw where
  imdb_id : Option String
deriving DecidableEq

/-- A `/tv/{id}/season/{n}` response body; `episodes` read with
`.get("episodes", [])`. -/
structure SeasonResp where
  episodes : List RawEpisode
deriving DecidableEq

/-- A TMDb method outcome: the `{"error": ...}` dict or the normal record. -/
inductive ApiResult (α : Type) where
  | err (msg : String)
  | ok (val : α)
deriving DecidableEq

/-- The record built by `TMDbAPI.get_tv_details`.  The four OMDb keys are
only added when the OMDb merge runs: the outer `none` models an absent key. -/
structure TvDetailsOut where
  title : Option String
  original_title : Option String
  first_air_date : Option String
  last_air_date : Option String
  number_of_seasons : Option Int
  number_of_episodes : Option Int
  vote_average : Option ℚ
  vote_count : Option Int
  overview : Option String
  genres : List (Option String)
  networks : List (Option String)
  poster_path : Option String
  backdrop_path : Option String
  tmdb_id : Option Int
  imdb_id : Option String
  imdb_rating : Option (Option ℚ)
  imdb_votes : Option (Option String)
  rotten_tomatoes : Option (Option String)
  metascore : Option (Option Int)
deriving DecidableEq

/-- The `if self.omdb_api and imdb_id: try ... except` enrichment shared by
`get_tv_details` and `get_all_episodes_ratings`: the fetched block when the
call succeeds with a non-empty dict, otherwise nothing (exceptions caught and
logged). -/
def omdbEnrich (omdbAvailable : Bool) (imdb_id : Option String)
    (searchResp : String × Option Int → Except Unit OmdbSearchRaw)
    (fetch : OmdbQuery → Except Unit OmdbRaw) : Option RatingsBlock :=
  if omdbAvailable && truthyStr imdb_id then
    match get_ratings none imdb_id searchResp fetch with
    | .ok (some b) => some b
    | .ok none => none
    | .error _ => none
  else
    none

/-- The `result` dict of `get_tv_details` before the OMDb merge. -/
def detailBase (tv_id : Option Int) (tv : TvDetailsRaw) (imdb_id : Option String) :
    TvDetailsOut :=
  { title := tv.name
    original_title := tv.original_name
    first_air_date := tv.first_air_date
    last_air_date := tv.last_air_date
    number_of_seasons := tv.number_of_seasons
    number_of_episodes := tv.number_of_episodes
    vote_average := tv.vote_average
    vote_count := tv.vote_count
    overview := tv.overview
    genres := tv.genres.map (·.name)
    networks := tv.networks.map (·.name)
    poster_path := tv.poster_path
    backdrop_path := tv.backdrop_path
    tmdb_id := tv_id
    imdb_id := imdb_id
    imdb_rating := none
    imdb_votes := none
    rotten_tomatoes := none
    metascore := none }

/-- The OMDb merge of `get_tv_details`: the four keys are added only when a
non-empty block was fetched. -/
def mergeOmdbDetail (base : TvDetailsOut) : Option RatingsBlock → TvDetailsOut
  | some b =>
    { base with imdb_rating := some b.imdb_rating
                imdb_votes := some b.imdb_votes
                rotten_tomatoes := some b.rotten_tomatoes
                metascore := some b.metascore }
  | none => base

/-- The body of `get_tv_details` after the search: empty results produce the
not-found error dict, otherwise the first result's id drives the detail and
external-id fetches (transport failures propagate). -/
def detailWithResults (title : String)
    (tvD : Option Int → Except Unit TvDetailsRaw)
    (extO : Option Int → Except Unit ExternalIdsRaw)
    (avail : Bool)
    (os : String × Option Int → Except Unit OmdbSearchRaw)
    (f : OmdbQuery → Except Unit OmdbRaw) :
    List TvSearchResult → Except Unit (ApiResult TvDetailsOut)
  | [] => pure (.err ("TV show '" ++ title ++ "' not found"))
  | r :: _ => do
    let tv ← tvD r.id
    let ext ← extO r.id
    pure (.ok (mergeOmdbDetail (detailBase r.id tv ext.imdb_id)
      (omdbEnrich avail ext.imdb_id os f)))

/-- `TMDbAPI.get_tv_details`. -/
def get_tv_details (title : String)
    (sTv : String → Except Unit TvSearchResp)
    (tvD : Option Int → Except Unit TvDetailsRaw)
    (extO : Option Int → Except Unit ExternalIdsRaw)
    (avail : Bool)
    (os : String × Option Int → Except Unit OmdbSearchRaw)
    (f : OmdbQuery → Except Unit OmdbRaw) :
    Except Unit (ApiResult TvDetailsOut) := do
  let resp ← sTv title
  detailWithResults title tvD extO avail os f resp.results

/-- The record built by `TMDbAPI.get_all_episodes_ratings`.  The `seasons`
dict is modelled as an association list in insertion order. -/
structure EpisodesOut where
  title : Option String
  first_air_date : Option String
  vote_average : Option ℚ
  seasons : List (Int × List EpisodeData)
  tmdb_id : Option Int
  imdb_id : Option String
  imdb_rating : Option (Option ℚ)
  imdb_votes : Option (Option String)
  rotten_tomatoes : Option (Option String)
  metascore : Option (Option Int)
deriving DecidableEq

/-- The season loop of `get_all_episodes_ratings`: one season fetch per kept
season (transport failures propagate, discarding the partial result), each
episode processed by the `is_unreleased` logic.  The dict key is the season's
`season_number` (necessarily present and positive after the filter; the
`getD 0` mirrors the `.get` default used by the filter). -/
def seasonsLoop (today : Date) (tv_id : Option Int)
    (sf : Option Int → Int → Except Unit SeasonResp) :
    List SeasonRaw → Except Unit (List (Int × List EpisodeData))
  | [] => .ok []
  | s :: rest => do
    let sd ← sf tv_id (s.season_number.getD 0)
    let tail ← seasonsLoop today tv_id sf rest
    pure ((s.season_number.getD 0,
      sd.episodes.map (processEpisode today)) :: tail)

/-- The body of `get_all_episodes_ratings` after the search: empty results
produce the not-found error dict; otherwise details, external ids, the
best-effort OMDb merge, the `season_number > 0` filter
(`.get("season_number", 0) > 0`) and the season loop. -/
def gridWithResults (title : String) (today : Date)
    (tvD : Option Int → Except Unit TvDetailsRaw)
    (extO : Option Int → Except Unit ExternalIdsRaw)
    (avail : Bool)
    (os : String × Option Int → Except Unit OmdbSearchRaw)
    (f : OmdbQuery → Except Unit OmdbRaw)
    (sf : Option Int → Int → Except Unit SeasonResp) :
    List TvSearchResult → Except Unit (ApiResult EpisodesOut)
  | [] => pure (.err ("TV show '" ++ title ++ "' not found"))
  | r :: _ => do
    let tv ← tvD r.id
    let ext ← extO r.id
    let seasonsOut ← seasonsLoop today r.id sf
      (tv.seasons.filter (fun s => decide (0 < s.season_number.getD 0)))
    pure (.ok
      { title := tv.name
        first_air_date := tv.first_air_date
        vote_average := tv.vote_average
        seasons := seasonsOut
        tmdb_id := r.id
        imdb_id := ext.imdb_id
        imdb_rating := (omdbEnrich avail ext.imdb_id os f).map (·.imdb_rating)
        imdb_votes := (omdbEnrich avail ext.imdb_id os f).map (·.imdb_votes)
        rotten_tomatoes :=
          (omdbEnrich avail ext.imdb_id os f).map (·.rotten_tomatoes)
        metascore := (omdbEnrich avail ext.imdb_id os f).map (·.metascore) })

/-- `TMDbAPI.get_all_episodes_ratings`, against the evaluation date `today`
(`datetime.now().date()`). -/
def get_all_episodes_ratings (title : String) (today : Date)
    (sTv : String → Except Unit TvSearchResp)
    (tvD : Option Int → Except Unit TvDetailsRaw)
    (extO : Option Int → Except Unit ExternalIdsRaw)
    (avail : Bool)
    (os : String × Option Int → Except Unit OmdbSearchRaw)
    (f : OmdbQuery → Except Unit OmdbRaw)
    (sf : Option Int → Int → Except Unit SeasonResp) :
    Except Unit (ApiResult EpisodesOut) := do
  let resp ← sTv title
  gridWithResults title today tvD extO avail os f sf resp.results

/-- Python 3 `round` to an integer: round-half-to-even on exact rationals. -/
def roundHalfEven (q : ℚ) : Int :=
  let f := ⌊q⌋
  let r := q - (f : ℚ)
  if r < 1/2 then f
  else if 1/2 < r then f + 1
  else if f % 2 = 0 then f else f + 1

/-- `round(x, 1)`: one decimal place. -/
def round1 (q : ℚ) : ℚ := (roundHalfEven (q * 10) : ℚ) / 10

/-- One element of the trending response's `results` (fields the client
reads). -/
structure TrendingShowRaw where
  id : Option Int
  name : Option String
  overview : Option String
  first_air_date : Option String
  vote_average : Option ℚ
  poster_path : Option String
  backdrop_path : Option String
  popularity : Option ℚ
deriving DecidableEq

/-- The trending response body.  `hasResultsKey` models the
`"results" in response` membership test (an empty, falsy response dict also
has no `results` key). -/
structure TrendingResp where
  hasResultsKey : Bool
  results : List TrendingShowRaw
  page : Option Int
  total_pages : Option Int
  total_results : Option Int
deriving DecidableEq

/-- The per-item record built by `get_trending_tv_series` (`series_data`);
the four OMDb keys are only added when enrichment produced a non-empty
block. -/
structure SeriesData where
  id : Option Int
  name : String
  overview : Option String
  first_air_date : Option String
  vote_average : ℚ
  poster_path : Option String
  backdrop_path : Option String
  popularity : Option ℚ
  imdb_id : Option String
  imdb_rating : Option (Option ℚ)
  imdb_votes : Option (Option String)
  rotten_tomatoes : Option (Option String)
  metascore : Option (Option Int)
deriving DecidableEq

/-- The page record returned by `get_trending_tv_series`. -/
structure TrendingOut where
  page : Int
  total_pages : Int
  total_results : Int
  results : List SeriesData
deriving DecidableEq

/-- The primary-only part of a trending item, with a given external id and no
secondary-rating fields. -/
def plainSeriesData (sh : TrendingShowRaw) (imdb_id : Option String) :
    SeriesData :=
  { id := sh.id
    name := titleCaseName (sh.name.getD "")
    overview := sh.overview
    first_air_date := sh.first_air_date
    vote_average := round1 (sh.vote_average.getD 0)
    poster_path :=
      if truthyStr sh.poster_path then
        some ("https://image.tmdb.org/t/p/w500" ++ sh.poster_path.getD "")
      else none
    backdrop_path :=
      if truthyStr sh.backdrop_path then
        some ("https://image.tmdb.org/t/p/original" ++ sh.backdrop_path.getD "")
      else none
    popularity := sh.popularity
    imdb_id := imdb_id
    imdb_rating := none
    imdb_votes := none
    rotten_tomatoes := none
    metascore := none }

/-- Attach a fetched (possibly empty) ratings dict to a trending item:
`if omdb_ratings:` adds the four keys only for a non-empty block. -/
def attachRatings (base : SeriesData) : Option RatingsBlock → SeriesData
  | some b =>
    { base with imdb_rating := some b.imdb_rating
                imdb_votes := some b.imdb_votes
                rotten_tomatoes := some b.rotten_tomatoes
                metascore := some b.metascore }
  | none => base

/-- The enrichment of a trending item once its external id is known: the
inner `try` catches ratings failures (keeping `imdb_id`). -/
def showWithExt (avail : Bool)
    (os : String × Option Int → Except Unit OmdbSearchRaw)
    (f : OmdbQuery → Except Unit OmdbRaw)
    (sh : TrendingShowRaw) (i : Option String) : SeriesData :=
  if avail && truthyStr i then
    match get_ratings none i os f with
    | .ok r => attachRatings (plainSeriesData sh i) r
    | .error _ => plainSeriesData sh i
  else plainSeriesData sh i

/-- The per-show body of the trending loop: the outer `try` catches
external-id failures (leaving `imdb_id = None` and no ratings); the item is
always produced. -/
def processShow
    (extO : Option Int → Except Unit ExternalIdsRaw)
    (avail : Bool)
    (os : String × Option Int → Except Unit OmdbSearchRaw)
    (f : OmdbQuery → Except Unit OmdbRaw)
    (sh : TrendingShowRaw) : SeriesData :=
  match extO sh.id with
  | .error _ => plainSeriesData sh none
  | .ok ext => showWithExt avail os f sh ext.imdb_id

/-- The `time_window` validation: anything other than `day`/`week` falls back
to `week`. -/
def normWindow (time_window : String) : String :=
  if time_window == "day" || time_window == "week" then time_window else "week"

/-- `TMDbAPI.get_trending_tv_series`: fetch one page for the validated
window, error out when the body lacks a `results` key, then build up to
`limit` items, each independently enriched on a best-effort basis. -/
def get_trending_tv_series (time_window : String) (page : Int) (limit : Nat)
    (trendFetch : String × Int → Except Unit TrendingResp)
    (extO : Option Int → Except Unit ExternalIdsRaw)
    (avail : Bool)
    (os : String × Option Int → Except Unit OmdbSearchRaw)
    (f : OmdbQuery → Except Unit OmdbRaw) :
    Except Unit (ApiResult TrendingOut) := do
  let response ← trendFetch (normWindow time_window, page)
  if !response.hasResultsKey then
    pure (.err "Failed to fetch trending TV series data")
  else
    pure (.ok
      { page := response.page.getD 1
        total_pages := response.total_pages.getD 1
        total_results := response.total_results.getD 0
        results := (response.results.take limit).map
          (processShow extO avail os f) })

/-! ### Concrete fixtures used to instantiate the theorems -/

/-- A search oracle resolving every title to the single id 1. -/
def gSearchTv : String → Except Unit TvSearchResp :=
  fun _ => Except.ok ⟨[⟨some 1⟩]⟩

/-- A search oracle with an empty result list for every title. -/
def gNoSearchTv : String → Except Unit TvSearchResp :=
  fun _ => Except.ok ⟨[]⟩

/-- A details oracle: one special season and one regular season. -/
def gTvDetails : Option Int → Except Unit TvDetailsRaw :=
  fun _ => Except.ok
    { name := some "Show", original_name := none, first_air_date := none
      last_air_date := none, number_of_seasons := some 1
      number_of_episodes := some 2, vote_average := some (87/10)
      vote_count := some 100, overview := none, genres := [], networks := []
      poster_path := none, backdrop_path := none
      seasons := [⟨some 0⟩, ⟨some 1⟩] }

/-- An external-ids oracle with no IMDb id. -/
def gExt : Option Int → Except Unit ExternalIdsRaw := fun _ => Except.ok ⟨none⟩

/-- A failing OMDb search oracle. -/
def gOmdbSearch : String × Option Int → Except Unit OmdbSearchRaw :=
  fun _ => Except.error ()

/-- A failing OMDb fetch oracle. -/
def gOmdbFetch : OmdbQuery → Except Unit OmdbRaw := fun _ => Except.error ()

/-- A season oracle with one released and one date-less episode. -/
def gSeasonFetch : Option Int → Int → Except Unit SeasonResp :=
  fun _ _ => Except.ok
    ⟨[⟨some 1, some "Pilot", some 9, some 10, some "2020-01-05"⟩,
      ⟨some 2, none, some 5, some 3, none⟩]⟩

/-- The evaluation date used by the fixtures. -/
def gToday : Date := ⟨2024, 6, 1⟩

/-- The grid produced from the fixtures above. -/
def gOut : EpisodesOut :=
  { title := some "Show", first_air_date := none, vote_average := some (87/10)
    seasons := [(1,
      [⟨some 1, some "Pilot", some 9, some 10, some "2020-01-05", false⟩,
       ⟨some 2, none, none, none, none, true⟩])]
    tmdb_id := some 1, imdb_id := none
    imdb_rating := none, imdb_votes := none
    rotten_tomatoes := none, metascore := none }

/-- A details oracle whose primary rating has three decimals. -/
def c2TvDetails : Option Int → Except Unit TvDetailsRaw :=
  fun _ => Except.ok
    { name := some "Foo", original_name := none, first_air_date := none
      last_air_date := none, number_of_seasons := none
      number_of_episodes := none, vote_average := some (8743/1000)
      vote_count := none, overview := none, genres := [], networks := []
      poster_path := none, backdrop_path := none, seasons := [] }

/-- The detail record produced from `c2TvDetails`. -/
def c2Out : TvDetailsOut :=
  { title := some "Foo", original_title := none, first_air_date := none
    last_air_date := none, number_of_seasons := none
    number_of_episodes := none, vote_average := some (8743/1000)
    vote_count := none, overview := none, genres := [], networks := []
    poster_path := none, backdrop_path := none, tmdb_id := some 1
    imdb_id := none, imdb_rating := none, imdb_votes := none
    rotten_tomatoes := none, metascore := none }

/-- A details oracle with an empty poster path and a relative backdrop
path. -/
def c8TvDetails : Option Int → Except Unit TvDetailsRaw :=
  fun _ => Except.ok
    { name := some "Bar", original_name := none, first_air_date := none
      last_air_date := none, number_of_seasons := none
      number_of_episodes := none, vote_average := none
      vote_count := none, overview := none, genres := [], networks := []
      poster_path := some "", backdrop_path := some "/abc.jpg", seasons := [] }

/-- The detail record produced from `c8TvDetails`. -/
def c8Out : TvDetailsOut :=
  { title := some "Bar", original_title := none, first_air_date := none
    last_air_date := none, number_of_seasons := none
    number_of_episodes := none, vote_average := none
    vote_count := none, overview := none, genres := [], networks := []
    poster_path := some "", backdrop_path := some "/abc.jpg"
    tmdb_id := some 1, imdb_id := none, imdb_rating := none
    imdb_votes := none, rotten_tomatoes := none, metascore := none }

/-- A detail record tagged as having been fetched by title. -/
def c3TitleData : OmdbRaw :=
  { Response := some "True", Title := some "ByTitle", Year := none
    imdbRating := none, imdbVotes := none, Metascore := none
    imdbID := none, Ratings := [] }

/-- A detail record tagged as having been fetched by id. -/
def c3IdData : OmdbRaw :=
  { Response := some "True", Title := some "ById", Year := none
    imdbRating := none, imdbVotes := none, Metascore := none
    imdbID := none, Ratings := [] }

/-- An OMDb fetch oracle distinguishing title lookups from id lookups. -/
def c3Fetch : OmdbQuery → Except Unit OmdbRaw
  | .byTitle _ => Except.ok c3TitleData
  | .byId _ => Except.ok c3IdData

/-- Five trending items, identified by their ids 1..5. -/
def c4Shows : List TrendingShowRaw :=
  [⟨some 1, some "a", none, none, none, none, none, none⟩,
   ⟨some 2, some "b", none, none, none, none, none, none⟩,
   ⟨some 3, some "c", none, none, none, none, none, none⟩,
   ⟨some 4, some "d", none, none, none, none, none, none⟩,
   ⟨some 5, some "e", none, none, none, none, none, none⟩]

/-- A trending page of the five items. -/
def c4Resp : TrendingResp := ⟨true, c4Shows, some 1, some 1, some 5⟩

/-- The trending oracle serving that page. -/
def c4Trend : String × Int → Except Unit TrendingResp :=
  fun _ => Except.ok c4Resp

/-- An external-ids oracle failing exactly for item 3. -/
def c4Ext : Option Int → Except Unit ExternalIdsRaw :=
  fun i => if i = some 3 then Except.error () else Except.ok ⟨some "tt1"⟩

/-- A search oracle returning one hit whose `Title` is the empty string. -/
def c5Search : String × Option Int → Except Unit OmdbSearchRaw :=
  fun _ => Except.ok ⟨some "True", [⟨some "tt1", some ""⟩]⟩

/-- The detail record behind the hit's id. -/
def c5Data : OmdbRaw :=
  { Response := some "True", Title := some "Bar", Year := some "2008"
    imdbRating := some "N/A", imdbVotes := none, Metascore := some "N/A"
    imdbID := some "tt1", Ratings := [] }

/-- The fetch oracle serving `c5Data`. -/
def c5Fetch : OmdbQuery → Except Unit OmdbRaw := fun _ => Except.ok c5Data

/-- The block `get_ratings` builds from `c5Data` (no correction keys). -/
def c5Block : RatingsBlock :=
  { title := some "Bar", year := some "2008", imdb_rating := none
    imdb_votes := none, metascore := none, imdb_id := some "tt1"
    rotten_tomatoes := none, original_query := none, corrected_title := none }

/-- A search oracle for the amended-C5 witness: one hit with a real title. -/
def c5wSearch : String × Option Int → Except Unit OmdbSearchRaw :=
  fun _ => Except.ok ⟨some "True", [⟨some "tt1", some "Breaking Bad"⟩]⟩

/-- A detail record with both numeric rating fields absent. -/
def c9Data : OmdbRaw :=
  { Response := some "True", Title := some "Show", Year := none
    imdbRating := none, imdbVotes := none, Metascore := none
    imdbID := some "tt9", Ratings := [] }

/-- The fetch oracle serving `c9Data`. -/
def c9Fetch : OmdbQuery → Except Unit OmdbRaw := fun _ => Except.ok c9Data

/-- A search oracle whose response reports a miss (`Response == "False"`). -/
def c10Search : String × Option Int → Except Unit OmdbSearchRaw :=
  fun _ => Except.ok ⟨some "False", []⟩

/-! ### Helper lemmas -/

theorem ok_bind {ε α β : Type} (a : α) (f : α → Except ε β) :
    (Except.ok a >>= f : Except ε β) = f a := rfl

theorem error_bind {ε α β : Type} (e : ε) (f : α → Except ε β) :
    (Except.error e >>= f : Except ε β) = Except.error e := rfl

/-- `is_unreleased` computes exactly the absent-or-unparseable-or-future
condition. -/
theorem isUnreleased_iff (today : Date) (ad : Option String) :
    isUnreleased today ad = true ↔
      ad = none ∨ (∃ s, ad = some s ∧ parseYMD s = none) ∨
      (∃ s d, ad = some s ∧ parseYMD s = some d ∧ Date.ltb today d = true) := by
  cases ad with
  | none => simp [isUnreleased, truthyStr]
  | some s =>
    by_cases hs : s.isEmpty
    · have hse : s = "" := (String.isEmpty_iff s).mp hs
      subst hse
      constructor
      · intro _
        exact Or.inr (Or.inl ⟨"", rfl, rfl⟩)
      · intro _
        rfl
    · cases hp : parseYMD s with
      | none => simp [isUnreleased, truthyStr, hs, hp]
      | some d => simp [isUnreleased, truthyStr, hs, hp]

/-- The per-episode construction satisfies the unreleased invariant. -/
theorem processEpisode_spec (today : Date) (e : RawEpisode) :
    ((processEpisode today e).unreleased = true ↔
      (processEpisode today e).air_date = none ∨
      (∃ s, (processEpisode today e).air_date = some s ∧ parseYMD s = none) ∨
      (∃ s d, (processEpisode today e).air_date = some s ∧
        parseYMD s = some d ∧ Date.ltb today d = true)) ∧
    ((processEpisode today e).unreleased = true →
      (processEpisode today e).vote_average = none ∧
      (processEpisode today e).vote_count = none) := by
  constructor
  · have h := isUnreleased_iff today e.air_date
    simpa [processEpisode] using h
  · intro hu
    simp only [processEpisode] at hu ⊢
    simp [hu]

/-- Every grid entry produced by the season loop is a `processEpisode` image,
and its key is the (positive-filtered) season number of a listed season. -/
theorem seasonsLoop_mem (today : Date) (tv_id : Option Int)
    (sf : Option Int → Int → Except Unit SeasonResp) :
    ∀ (l : List SeasonRaw) (out : List (Int × List EpisodeData)),
      seasonsLoop today tv_id sf l = .ok out →
      ∀ k eps, (k, eps) ∈ out →
        ∃ s, s ∈ l ∧ k = s.season_number.getD 0 ∧
          ∃ sd, sf tv_id k = .ok sd ∧
            eps = sd.episodes.map (processEpisode today) := by
  intro l
  induction l with
  | nil =>
    intro out h k eps hmem
    simp only [seasonsLoop] at h
    cases h
    simp at hmem
  | cons s rest ih =>
    intro out h k eps hmem
    simp only [seasonsLoop] at h
    cases h1 : sf tv_id (s.season_number.getD 0) with
    | error e => rw [h1, error_bind] at h; cases h
    | ok sd =>
      rw [h1, ok_bind] at h
      cases h2 : seasonsLoop today tv_id sf rest with
      | error e => rw [h2, error_bind] at h; cases h
      | ok tail =>
        rw [h2, ok_bind] at h
        cases h
        rcases List.mem_cons.mp hmem with hhead | htail
        · cases hhead
          exact ⟨s, List.mem_cons_self s rest, rfl, sd, h1, rfl⟩
        · rcases ih tail h2 k eps htail with ⟨s', hs', hk, sd', hsd', heps⟩
          exact ⟨s', List.mem_cons_of_mem s hs', hk, sd', hsd', heps⟩

/-- Inversion of a successful `get_all_episodes_ratings` call. -/
theorem grid_success_inv (title : String) (today : Date)
    (sTv : String → Except Unit TvSearchResp)
    (tvD : Option Int → Except Unit TvDetailsRaw)
    (extO : Option Int → Except Unit ExternalIdsRaw)
    (avail : Bool)
    (os : String × Option Int → Except Unit OmdbSearchRaw)
    (f : OmdbQuery → Except Unit OmdbRaw)
    (sf : Option Int → Int → Except Unit SeasonResp)
    (out : EpisodesOut)
    (hout : get_all_episodes_ratings title today sTv tvD extO avail os f sf =
      .ok (.ok out)) :
    ∃ resp r rest tv extids sres,
      sTv title = .ok resp ∧ resp.results = r :: rest ∧
      tvD r.id = .ok tv ∧ extO r.id = .ok extids ∧
      seasonsLoop today r.id sf
        (tv.seasons.filter (fun s => decide (0 < s.season_number.getD 0))) =
        .ok sres ∧
      out.seasons = sres ∧ out.vote_average = tv.vote_average := by
  unfold get_all_episodes_ratings at hout
  cases h1 : sTv title with
  | error e => rw [h1, error_bind] at hout; cases hout
  | ok resp =>
    rw [h1, ok_bind] at hout
    cases h2 : resp.results with
    | nil => rw [h2] at hout; simp only [gridWithResults] at hout; cases hout
    | cons r rest =>
      rw [h2] at hout
      simp only [gridWithResults] at hout
      cases h3 : tvD r.id with
      | error e => rw [h3, error_bind] at hout; cases hout
      | ok tv =>
        rw [h3, ok_bind] at hout
        cases h4 : extO r.id with
        | error e => rw [h4, error_bind] at hout; cases hout
        | ok extids =>
          rw [h4, ok_bind] at hout
          cases h5 : seasonsLoop today r.id sf
              (tv.seasons.filter
                (fun s => decide (0 < s.season_number.getD 0))) with
          | error e => rw [h5, error_bind] at hout; cases hout
          | ok sres =>
            rw [h5, ok_bind] at hout
            cases hout
            exact ⟨resp, r, rest, tv, extids, sres, rfl, h2, h3, h4, h5,
              rfl, rfl⟩

/-- Inversion of a successful `get_tv_details` call. -/
theorem detail_success_inv (title : String)
    (sTv : String → Except Unit TvSearchResp)
    (tvD : Option Int → Except Unit TvDetailsRaw)
    (extO : Option Int → Except Unit ExternalIdsRaw)
    (avail : Bool)
    (os : String × Option Int → Except Unit OmdbSearchRaw)
    (f : OmdbQuery → Except Unit OmdbRaw)
    (out : TvDetailsOut)
    (hout : get_tv_details title sTv tvD extO avail os f = .ok (.ok out)) :
    ∃ resp r rest tv extids,
      sTv title = .ok resp ∧ resp.results = r :: rest ∧
      tvD r.id = .ok tv ∧ extO r.id = .ok extids ∧
      out = mergeOmdbDetail (detailBase r.id tv extids.imdb_id)
        (omdbEnrich avail extids.imdb_id os f) := by
  unfold get_tv_details at hout
  cases h1 : sTv title with
  | error e => rw [h1, error_bind] at hout; cases hout
  | ok resp =>
    rw [h1, ok_bind] at hout
    cases h2 : resp.results with
    | nil => rw [h2] at hout; simp only [detailWithResults] at hout; cases hout
    | cons r rest =>
      rw [h2] at hout
      simp only [detailWithResults] at hout
      cases h3 : tvD r.id with
      | error e => rw [h3, error_bind] at hout; cases hout
      | ok tv =>
        rw [h3, ok_bind] at hout
        cases h4 : extO r.id with
        | error e => rw [h4, error_bind] at hout; cases hout
        | ok extids =>
          rw [h4, ok_bind] at hout
          cases hout
          exact ⟨resp, r, rest, tv, extids, rfl, h2, h3, h4, rfl⟩

/-- Inversion of a successful `get_trending_tv_series` call. -/
theorem trending_success_inv (tw : String) (pg : Int) (lim : Nat)
    (tf : String × Int → Except Unit TrendingResp)
    (extO : Option Int → Except Unit ExternalIdsRaw)
    (avail : Bool)
    (os : String × Option Int → Except Unit OmdbSearchRaw)
    (f : OmdbQuery → Except Unit OmdbRaw)
    (out : TrendingOut)
    (hout : get_trending_tv_series tw pg lim tf extO avail os f =
      .ok (.ok out)) :
    ∃ resp, tf (normWindow tw, pg) = .ok resp ∧ resp.hasResultsKey = true ∧
      out = { page := resp.page.getD 1
              total_pages := resp.total_pages.getD 1
              total_results := resp.total_results.getD 0
              results := (resp.results.take lim).map
                (processShow extO avail os f) } := by
  unfold get_trending_tv_series at hout
  cases h1 : tf (normWindow tw, pg) with
  | error e => rw [h1, error_bind] at hout; cases hout
  | ok resp =>
    rw [h1, ok_bind] at hout
    cases hk : resp.hasResultsKey with
    | false =>
      rw [hk] at hout
      cases hout
    | true =>
      rw [hk] at hout
      cases hout
      exact ⟨resp, rfl, hk, rfl⟩

/-- The OMDb merge never changes the primary fields of the detail record. -/
theorem mergeOmdbDetail_primary (base : TvDetailsOut) (o : Option RatingsBlock) :
    (mergeOmdbDetail base o).vote_average = base.vote_average ∧
    (mergeOmdbDetail base o).poster_path = base.poster_path ∧
    (mergeOmdbDetail base o).backdrop_path = base.backdrop_path := by
  cases o <;> exact ⟨rfl, rfl, rfl⟩

/-- The primary fields of a trending item do not depend on the enrichment
outcome. -/
theorem processShow_primary_fields
    (extO : Option Int → Except Unit ExternalIdsRaw) (avail : Bool)
    (os : String × Option Int → Except Unit OmdbSearchRaw)
    (f : OmdbQuery → Except Unit OmdbRaw) (sh : TrendingShowRaw) :
    (processShow extO avail os f sh).vote_average =
      round1 (sh.vote_average.getD 0) ∧
    (processShow extO avail os f sh).poster_path =
      (if truthyStr sh.poster_path then
        some ("https://image.tmdb.org/t/p/w500" ++ sh.poster_path.getD "")
      else none) ∧
    (processShow extO avail os f sh).backdrop_path =
      (if truthyStr sh.backdrop_path then
        some ("https://image.tmdb.org/t/p/original" ++ sh.backdrop_path.getD "")
      else none) := by
  have hext : ∀ i, (showWithExt avail os f sh i).vote_average =
      round1 (sh.vote_average.getD 0) ∧
      (showWithExt avail os f sh i).poster_path =
        (if truthyStr sh.poster_path then
          some ("https://image.tmdb.org/t/p/w500" ++ sh.poster_path.getD "")
        else none) ∧
      (showWithExt avail os f sh i).backdrop_path =
        (if truthyStr sh.backdrop_path then
          some ("https://image.tmdb.org/t/p/original" ++
            sh.backdrop_path.getD "")
        else none) := by
    intro i
    unfold showWithExt
    by_cases hb : (avail && truthyStr i) = true
    · rw [if_pos hb]
      cases get_ratings none i os f with
      | error e => exact ⟨rfl, rfl, rfl⟩
      | ok r =>
        cases r with
        | none => exact ⟨rfl, rfl, rfl⟩
        | some b => exact ⟨rfl, rfl, rfl⟩
    · rw [if_neg hb]
      exact ⟨rfl, rfl, rfl⟩
  unfold processShow
  cases extO sh.id with
  | error e => exact ⟨rfl, rfl, rfl⟩
  | ok ext => exact hext ext.imdb_id

theorem truthyStr_some (t : String) (ht : t ≠ "") : truthyStr (some t) = true := by
  have hie : t.isEmpty = false := by
    cases hb : t.isEmpty
    · rfl
    · exact absurd ((String.isEmpty_iff t).mp hb) ht
  simp [truthyStr, hie]

theorem truthyStr_some_iff (s : String) : truthyStr (some s) = true ↔ s ≠ "" := by
  constructor
  · intro h hs
    subst hs
    exact absurd h (by decide)
  · intro h
    exact truthyStr_some s h

theorem imdbRatingField_none : imdbRatingField none = .ok (some 0) := rfl

theorem metascoreField_none : metascoreField none = .ok (some 0) := rfl

theorem omdbRespond_ok (data : OmdbRaw) :
    omdbRespond (.ok data) =
      if data.Response = some "False" then .ok none else .ok (some data) := rfl

theorem search_series_ok (t : String) (y : Option Int)
    (os : String × Option Int → Except Unit OmdbSearchRaw)
    (data : OmdbSearchRaw) (h : os (t, y) = .ok data) :
    search_series t y os =
      if data.Response = some "False" then .ok [] else .ok data.Search := by
  unfold search_series
  rw [h]

/-- With only a truthy title, `get_ratings` searches first, applies the
correction step and resolves. -/
theorem get_ratings_search_branch (t : String) (ht : t ≠ "")
    (os : String × Option Int → Except Unit OmdbSearchRaw)
    (of : OmdbQuery → Except Unit OmdbRaw) :
    get_ratings (some t) none os of =
      search_series t none os >>= fun srs =>
        correctionStep none srs >>= fun step =>
          ratingsFinish (some t) step.1 step.2 of := by
  unfold get_ratings
  rw [truthyStr_some t ht]
  rfl

/-- With a truthy id, the resolution tail queries by id. -/
theorem ratingsFinish_byId (ot ct : Option String) (iid : String)
    (hi : iid ≠ "") (of : OmdbQuery → Except Unit OmdbRaw) :
    ratingsFinish ot (some iid) ct of =
      omdbRespond (of (.byId iid)) >>= blockFromData ot ct := by
  unfold ratingsFinish get_series_details
  rw [truthyStr_some iid hi]
  rfl

/-- With no id and a truthy title, the resolution tail queries by title. -/
theorem ratingsFinish_byTitle (t : String) (ht : t ≠ "") (ct : Option String)
    (of : OmdbQuery → Except Unit OmdbRaw) :
    ratingsFinish (some t) none ct of =
      omdbRespond (of (.byTitle t)) >>= blockFromData (some t) ct := by
  unfold ratingsFinish get_series_details
  rw [show (if (!truthyStr none) = true then some t else none) = some t
    from rfl]
  rw [truthyStr_some t ht]
  rfl

/-- Inversion of a successful block construction. -/
theorem mkRatings_ok_inv (data : OmdbRaw) (ot ct : Option String)
    (b : RatingsBlock) (h : mkRatings data ot ct = .ok b) :
    ∃ ir ms, imdbRatingField data.imdbRating = .ok ir ∧
      metascoreField data.Metascore = .ok ms ∧
      b = addCorrection (baseBlock data ir ms) ot ct := by
  unfold mkRatings at h
  cases h1 : imdbRatingField data.imdbRating with
  | error e => rw [h1, error_bind] at h; cases h
  | ok ir =>
    rw [h1, ok_bind] at h
    cases h2 : metascoreField data.Metascore with
    | error e => rw [h2, error_bind] at h; cases h
    | ok ms =>
      rw [h2, ok_bind] at h
      cases h
      exact ⟨ir, ms, rfl, rfl, rfl⟩

/-- The correction step never touches the non-correction fields. -/
theorem addCorrection_fields (base : RatingsBlock) (ot ct : Option String) :
    (addCorrection base ot ct).title = base.title ∧
    (addCorrection base ot ct).imdb_rating = base.imdb_rating ∧
    (addCorrection base ot ct).metascore = base.metascore ∧
    (addCorrection base ot ct).imdb_id = base.imdb_id := by
  unfold addCorrection
  by_cases h : (truthyStr ot && truthyStr ct &&
      pyLower (ot.getD "") != pyLower (ct.getD "")) = true
  · rw [if_pos h]
    exact ⟨rfl, rfl, rfl, rfl⟩
  · rw [if_neg h]
    exact ⟨rfl, rfl, rfl, rfl⟩

/-- The correction keys are populated exactly when the corrected title is
non-empty and differs from the (non-empty) query after lowering. -/
theorem addCorrection_some (base : RatingsBlock) (t ct : String) (ht : t ≠ "") :
    ((ct ≠ "" ∧ pyLower t ≠ pyLower ct) →
      (addCorrection base (some t) (some ct)).original_query = some t ∧
      (addCorrection base (some t) (some ct)).corrected_title = some ct) ∧
    (¬(ct ≠ "" ∧ pyLower t ≠ pyLower ct) →
      (addCorrection base (some t) (some ct)).original_query =
        base.original_query ∧
      (addCorrection base (some t) (some ct)).corrected_title =
        base.corrected_title) := by
  have hbool : (truthyStr (some t) && truthyStr (some ct) &&
      pyLower ((some t).getD "") != pyLower ((some ct).getD "")) = true ↔
      (ct ≠ "" ∧ pyLower t ≠ pyLower ct) := by
    rw [truthyStr_some t ht]
    simp only [Option.getD_some, Bool.true_and, Bool.and_eq_true, bne_iff_ne,
      truthyStr_some_iff]
  constructor
  · intro hc
    unfold addCorrection
    rw [if_pos (hbool.mpr hc)]
    exact ⟨rfl, rfl⟩
  · intro hc
    have hnb : ¬(truthyStr (some t) && truthyStr (some ct) &&
        pyLower ((some t).getD "") != pyLower ((some ct).getD "")) = true :=
      fun hb => hc (hbool.mp hb)
    unfold addCorrection
    rw [if_neg hnb]
    exact ⟨rfl, rfl⟩

/-! ### Claims -/

/-- C1: for every episode produced by `get_all_episodes_ratings`, the
`unreleased` flag is true iff the episode's `air_date` is absent, fails to
parse as a `YYYY-MM-DD` date, or is strictly after the evaluation date; and
whenever the flag is true, the output `vote_average` and `vote_count` are
null, regardless of the provider-supplied values. -/
theorem grid_unreleased_iff_and_nulls (title : String) (today : Date)
    (sTv : String → Except Unit TvSearchResp)
    (tvD : Option Int → Except Unit TvDetailsRaw)
    (extO : Option Int → Except Unit ExternalIdsRaw)
    (avail : Bool)
    (os : String × Option Int → Except Unit OmdbSearchRaw)
    (f : OmdbQuery → Except Unit OmdbRaw)
    (sf : Option Int → Int → Except Unit SeasonResp)
    (out : EpisodesOut) (k : Int) (eps : List EpisodeData) (ed : EpisodeData)
    (hout : get_all_episodes_ratings title today sTv tvD extO avail os f sf =
      .ok (.ok out))
    (hk : (k, eps) ∈ out.seasons) (he : ed ∈ eps) :
    (ed.unreleased = true ↔
      ed.air_date = none ∨
      (∃ s, ed.air_date = some s ∧ parseYMD s = none) ∨
      (∃ s d, ed.air_date = some s ∧ parseYMD s = some d ∧
        Date.ltb today d = true)) ∧
    (ed.unreleased = true → ed.vote_average = none ∧ ed.vote_count = none) := by
  rcases grid_success_inv title today sTv tvD extO avail os f sf out hout with
    ⟨resp, r, rest, tv, extids, sres, _, _, _, _, h5, hseas, _⟩
  rw [hseas] at hk
  rcases seasonsLoop_mem today r.id sf _ sres h5 k eps hk with
    ⟨s, _, _, sd, _, heps⟩
  subst heps
  rcases List.mem_map.mp he with ⟨e, _, hed⟩
  subst hed
  exact processEpisode_spec today e

/-- C1 witness: the fixture grid contains a date-less episode, for which the
theorem yields the unreleased invariant. -/
theorem grid_unreleased_iff_and_nulls_witness :
    ((⟨some 2, none, none, none, none, true⟩ : EpisodeData).unreleased = true ↔
      (⟨some 2, none, none, none, none, true⟩ : EpisodeData).air_date = none ∨
      (∃ s, (⟨some 2, none, none, none, none, true⟩ : EpisodeData).air_date =
        some s ∧ parseYMD s = none) ∨
      (∃ s d, (⟨some 2, none, none, none, none, true⟩ : EpisodeData).air_date =
        some s ∧ parseYMD s = some d ∧ Date.ltb gToday d = true)) ∧
    ((⟨some 2, none, none, none, none, true⟩ : EpisodeData).unreleased = true →
      (⟨some 2, none, none, none, none, true⟩ : EpisodeData).vote_average =
        none ∧
      (⟨some 2, none, none, none, none, true⟩ : EpisodeData).vote_count =
        none) :=
  grid_unreleased_iff_and_nulls "x" gToday gSearchTv gTvDetails gExt false
    gOmdbSearch gOmdbFetch gSeasonFetch gOut 1
    [⟨some 1, some "Pilot", some 9, some 10, some "2020-01-05", false⟩,
     ⟨some 2, none, none, none, none, true⟩]
    ⟨some 2, none, none, none, none, true⟩
    rfl (by simp [gOut]) (by simp)

/-- C6: a season with `season_number ≤ 0` (season 0 / specials) never appears
as a key of the grid produced by `get_all_episodes_ratings`. -/
theorem grid_no_special_seasons (title : String) (today : Date)
    (sTv : String → Except Unit TvSearchResp)
    (tvD : Option Int → Except Unit TvDetailsRaw)
    (extO : Option Int → Except Unit ExternalIdsRaw)
    (avail : Bool)
    (os : String × Option Int → Except Unit OmdbSearchRaw)
    (f : OmdbQuery → Except Unit OmdbRaw)
    (sf : Option Int → Int → Except Unit SeasonResp)
    (out : EpisodesOut) (k : Int) (eps : List EpisodeData)
    (hout : get_all_episodes_ratings title today sTv tvD extO avail os f sf =
      .ok (.ok out))
    (hk : (k, eps) ∈ out.seasons) : 0 < k := by
  rcases grid_success_inv title today sTv tvD extO avail os f sf out hout with
    ⟨resp, r, rest, tv, extids, sres, _, _, _, _, h5, hseas, _⟩
  rw [hseas] at hk
  rcases seasonsLoop_mem today r.id sf _ sres h5 k eps hk with
    ⟨s, hs, hkey, _⟩
  have hfil := List.of_mem_filter hs
  rw [hkey]
  exact of_decide_eq_true hfil

/-- C6 witness: the fixture grid (whose raw season list contains season 0)
only has the positive key 1. -/
theorem grid_no_special_seasons_witness : (0 : Int) < 1 :=
  grid_no_special_seasons "x" gToday gSearchTv gTvDetails gExt false
    gOmdbSearch gOmdbFetch gSeasonFetch gOut 1
    [⟨some 1, some "Pilot", some 9, some 10, some "2020-01-05", false⟩,
     ⟨some 2, none, none, none, none, true⟩]
    rfl (by simp [gOut])

/-- C7: when the primary provider's search returns an empty result list,
`get_tv_details` returns the not-found error record, not a crash and not an
empty-but-successful record. -/
theorem tv_details_not_found (title : String)
    (sTv : String → Except Unit TvSearchResp)
    (tvD : Option Int → Except Unit TvDetailsRaw)
    (extO : Option Int → Except Unit ExternalIdsRaw)
    (avail : Bool)
    (os : String × Option Int → Except Unit OmdbSearchRaw)
    (f : OmdbQuery → Except Unit OmdbRaw)
    (resp : TvSearchResp)
    (hresp : sTv title = Except.ok resp) (hempty : resp.results = []) :
    get_tv_details title sTv tvD extO avail os f =
      .ok (.err ("TV show '" ++ title ++ "' not found")) := by
  unfold get_tv_details
  rw [hresp, ok_bind, hempty]
  simp only [detailWithResults]
  rfl

/-- C7 witness: a title whose search comes back empty yields the not-found
record. -/
theorem tv_details_not_found_witness :
    get_tv_details "Zzz" gNoSearchTv gTvDetails gExt false gOmdbSearch
      gOmdbFetch = .ok (.err ("TV show '" ++ "Zzz" ++ "' not found")) :=
  tv_details_not_found "Zzz" gNoSearchTv gTvDetails gExt false gOmdbSearch
    gOmdbFetch ⟨[]⟩ rfl rfl

/-- C2 counterexample: `get_tv_details` surfaces the primary rating `8.743`
unrounded, although `round(8.743, 1) = 8.7`; the series-detail shape does not
round. -/
theorem detail_rating_unrounded_cex :
    get_tv_details "Foo" gSearchTv c2TvDetails gExt false gOmdbSearch
      gOmdbFetch = .ok (.ok c2Out) ∧
    c2Out.vote_average = some (8743/1000 : ℚ) ∧
    round1 (8743/1000) = 87/10 ∧ (8743/1000 : ℚ) ≠ 87/10 := by
  refine ⟨rfl, rfl, ?_, by norm_num⟩
  unfold round1 roundHalfEven
  norm_num

/-- C2 (amended): only the trending list rounds the primary rating to one
decimal place (a missing rating treated as 0 first); the series-detail and
episode-grid shapes surface the provider's `vote_average` unchanged. -/
theorem primary_rating_rounding_amended :
    (∀ tw pg lim tf extO avail os f out,
      get_trending_tv_series tw pg lim tf extO avail os f = .ok (.ok out) →
      ∃ resp, tf (normWindow tw, pg) = .ok resp ∧
        out.results.map (·.vote_average) = (resp.results.take lim).map
          (fun sh => round1 (sh.vote_average.getD 0))) ∧
    (∀ title sTv tvD extO avail os f out,
      get_tv_details title sTv tvD extO avail os f = .ok (.ok out) →
      ∃ resp r rest tv, sTv title = .ok resp ∧ resp.results = r :: rest ∧
        tvD r.id = .ok tv ∧ out.vote_average = tv.vote_average) ∧
    (∀ title today sTv tvD extO avail os f sf out,
      get_all_episodes_ratings title today sTv tvD extO avail os f sf =
        .ok (.ok out) →
      ∃ resp r rest tv, sTv title = .ok resp ∧ resp.results = r :: rest ∧
        tvD r.id = .ok tv ∧ out.vote_average = tv.vote_average) := by
  refine ⟨?_, ?_, ?_⟩
  · intro tw pg lim tf extO avail os f out hout
    rcases trending_success_inv tw pg lim tf extO avail os f out hout with
      ⟨resp, h1, _, ho⟩
    subst ho
    refine ⟨resp, h1, ?_⟩
    rw [List.map_map]
    refine List.map_congr_left ?_
    intro sh _
    exact (processShow_primary_fields extO avail os f sh).1
  · intro title sTv tvD extO avail os f out hout
    rcases detail_success_inv title sTv tvD extO avail os f out hout with
      ⟨resp, r, rest, tv, extids, h1, h2, h3, _, ho⟩
    subst ho
    exact ⟨resp, r, rest, tv, h1, h2, h3,
      (mergeOmdbDetail_primary (detailBase r.id tv extids.imdb_id)
        (omdbEnrich avail extids.imdb_id os f)).1⟩
  · intro title today sTv tvD extO avail os f sf out hout
    rcases grid_success_inv title today sTv tvD extO avail os f sf out hout
      with ⟨resp, r, rest, tv, extids, sres, h1, h2, h3, _, _, _, hv⟩
    exact ⟨resp, r, rest, tv, h1, h2, h3, hv⟩

/-- C2 witness: the detail-shape conjunct applied to the fixture with rating
`8.743`. -/
theorem primary_rating_rounding_amended_witness :
    ∃ resp r rest tv,
      gSearchTv "Foo" = .ok resp ∧ resp.results = r :: rest ∧
      c2TvDetails r.id = .ok tv ∧ c2Out.vote_average = tv.vote_average :=
  primary_rating_rounding_amended.2.1 "Foo" gSearchTv c2TvDetails gExt false
    gOmdbSearch gOmdbFetch c2Out rfl

/-- C3 counterexample: supplying both a title and an id to
`get_series_details` is silently tolerated (the title is used), not signaled
as a caller error. -/
theorem series_details_both_args_cex :
    get_series_details (some "Breaking Bad") (some "tt0903747") c3Fetch =
      .ok (some c3TitleData) ∧
    (∀ e, get_series_details (some "Breaking Bad") (some "tt0903747") c3Fetch ≠
      .error e) := by
  constructor
  · rfl
  · intro e h
    have h2 : (Except.ok (some c3TitleData) : Except PyErr (Option OmdbRaw)) =
        .error e :=
      (rfl : get_series_details (some "Breaking Bad") (some "tt0903747")
        c3Fetch = .ok (some c3TitleData)).symm.trans h
    exact Except.noConfusion h2

/-- C3 (amended): at least one truthy argument must be supplied to
`get_series_details`: with both falsy it raises `ValueError`; with a truthy
title it queries by title (even when an id is also supplied); with a falsy
title and truthy id it queries by id. -/
theorem series_details_arg_check_amended (t i : Option String)
    (f : OmdbQuery → Except Unit OmdbRaw) :
    (truthyStr t = false → truthyStr i = false →
      get_series_details t i f =
        .error (.valueError "Either title or imdb_id must be provided.")) ∧
    (∀ s, t = some s → truthyStr t = true →
      get_series_details t i f = omdbRespond (f (.byTitle s))) ∧
    (truthyStr t = false → ∀ s, i = some s → truthyStr i = true →
      get_series_details t i f = omdbRespond (f (.byId s))) := by
  refine ⟨?_, ?_, ?_⟩
  · intro ht hi
    unfold get_series_details
    rw [ht, hi]
    rfl
  · intro s hts htt
    subst hts
    unfold get_series_details
    rw [htt]
    rfl
  · intro ht s his hit
    subst his
    unfold get_series_details
    rw [ht, hit]
    rfl

/-- C3 witness: with no title and id `tt1`, the lookup is by id. -/
theorem series_details_arg_check_amended_witness :
    get_series_details none (some "tt1") c3Fetch =
      omdbRespond (c3Fetch (.byId "tt1")) :=
  (series_details_arg_check_amended none (some "tt1") c3Fetch).2.2 rfl "tt1"
    rfl rfl

/-- C8 counterexample: the series-detail shape passes the provider's relative
image paths through unchanged: an empty poster path surfaces as `""` (not
null), and a relative backdrop path is not turned into an absolute URL. -/
theorem image_url_detail_cex :
    get_tv_details "Bar" gSearchTv c8TvDetails gExt false gOmdbSearch
      gOmdbFetch = .ok (.ok c8Out) ∧
    c8Out.poster_path = some "" ∧ (some "" : Option String) ≠ none ∧
    c8Out.backdrop_path = some "/abc.jpg" ∧
    (∀ p : String, c8Out.backdrop_path ≠
      some ("https://image.tmdb.org/t/p/original" ++ p)) := by
  refine ⟨rfl, rfl, by simp, rfl, ?_⟩
  intro p hp
  have h1 : "/abc.jpg" = "https://image.tmdb.org/t/p/original" ++ p :=
    Option.some.inj hp
  have h2 : "/abc.jpg".data = ("https://image.tmdb.org/t/p/original" ++ p).data
    := by rw [h1]
  have h3 : "/abc.jpg".data =
      "https://image.tmdb.org/t/p/original".data ++ p.data := h2
  injection h3 with hc _
  exact absurd hc (by decide)

/-- C8 (amended): the trending shape builds an absolute image URL exactly
when the relative path is non-null and non-empty and yields null otherwise;
the series-detail shape surfaces the provider's relative paths unchanged (no
URL construction). -/
theorem image_url_amended :
    (∀ tw pg lim tf extO avail os f out,
      get_trending_tv_series tw pg lim tf extO avail os f = .ok (.ok out) →
      ∃ resp, tf (normWindow tw, pg) = .ok resp ∧
        out.results.map (·.poster_path) = (resp.results.take lim).map
          (fun sh => if truthyStr sh.poster_path then
              some ("https://image.tmdb.org/t/p/w500" ++ sh.poster_path.getD "")
            else none) ∧
        out.results.map (·.backdrop_path) = (resp.results.take lim).map
          (fun sh => if truthyStr sh.backdrop_path then
              some ("https://image.tmdb.org/t/p/original" ++
                sh.backdrop_path.getD "")
            else none)) ∧
    (∀ title sTv tvD extO avail os f out,
      get_tv_details title sTv tvD extO avail os f = .ok (.ok out) →
      ∃ resp r rest tv, sTv title = .ok resp ∧ resp.results = r :: rest ∧
        tvD r.id = .ok tv ∧
        out.poster_path = tv.poster_path ∧
        out.backdrop_path = tv.backdrop_path) := by
  constructor
  · intro tw pg lim tf extO avail os f out hout
    rcases trending_success_inv tw pg lim tf extO avail os f out hout with
      ⟨resp, h1, _, ho⟩
    subst ho
    refine ⟨resp, h1, ?_, ?_⟩
    · rw [List.map_map]
      refine List.map_congr_left ?_
      intro sh _
      exact (processShow_primary_fields extO avail os f sh).2.1
    · rw [List.map_map]
      refine List.map_congr_left ?_
      intro sh _
      exact (processShow_primary_fields extO avail os f sh).2.2
  · intro title sTv tvD extO avail os f out hout
    rcases detail_success_inv title sTv tvD extO avail os f out hout with
      ⟨resp, r, rest, tv, extids, h1, h2, h3, _, ho⟩
    subst ho
    exact ⟨resp, r, rest, tv, h1, h2, h3,
      (mergeOmdbDetail_primary (detailBase r.id tv extids.imdb_id)
        (omdbEnrich avail extids.imdb_id os f)).2.1,
      (mergeOmdbDetail_primary (detailBase r.id tv extids.imdb_id)
        (omdbEnrich avail extids.imdb_id os f)).2.2⟩

/-- C8 witness: the detail-shape conjunct applied to the fixture with an
empty poster path and a relative backdrop path. -/
theorem image_url_amended_witness :
    ∃ resp r rest tv,
      gSearchTv "Bar" = .ok resp ∧ resp.results = r :: rest ∧
      c8TvDetails r.id = .ok tv ∧
      c8Out.poster_path = tv.poster_path ∧
      c8Out.backdrop_path = tv.backdrop_path :=
  image_url_amended.2 "Bar" gSearchTv c8TvDetails gExt false gOmdbSearch
    gOmdbFetch c8Out rfl

/-- C4: a trending page with a usable `results` key yields exactly the first
`limit` items, in provider order, each mapped independently by the per-item
enrichment; and an enrichment failure (external-id lookup or ratings fetch)
only degrades that item to its primary fields, with no secondary-rating
keys. -/
theorem trending_enrichment_isolation (tw : String) (pg : Int) (lim : Nat)
    (tf : String × Int → Except Unit TrendingResp)
    (extO : Option Int → Except Unit ExternalIdsRaw)
    (avail : Bool)
    (os : String × Option Int → Except Unit OmdbSearchRaw)
    (f : OmdbQuery → Except Unit OmdbRaw)
    (resp : TrendingResp)
    (h1 : tf (normWindow tw, pg) = .ok resp)
    (hk : resp.hasResultsKey = true) :
    get_trending_tv_series tw pg lim tf extO avail os f =
      .ok (.ok { page := resp.page.getD 1
                 total_pages := resp.total_pages.getD 1
                 total_results := resp.total_results.getD 0
                 results := (resp.results.take lim).map
                   (processShow extO avail os f) }) ∧
    (∀ sh e, extO sh.id = .error e →
      processShow extO avail os f sh = plainSeriesData sh none) ∧
    (∀ sh ext e, extO sh.id = .ok ext →
      get_ratings none ext.imdb_id os f = .error e →
      processShow extO avail os f sh = plainSeriesData sh ext.imdb_id) ∧
    (∀ sh ext, extO sh.id = .ok ext →
      (avail && truthyStr ext.imdb_id) = false →
      processShow extO avail os f sh = plainSeriesData sh ext.imdb_id) := by
  refine ⟨?_, ?_, ?_, ?_⟩
  · unfold get_trending_tv_series
    rw [h1, ok_bind, hk]
    rfl
  · intro sh e hx
    unfold processShow
    rw [hx]
  · intro sh ext e hx hr
    unfold processShow
    rw [hx]
    show showWithExt avail os f sh ext.imdb_id = _
    unfold showWithExt
    by_cases hb : (avail && truthyStr ext.imdb_id) = true
    · rw [if_pos hb, hr]
    · rw [if_neg hb]
  · intro sh ext hx hb
    unfold processShow
    rw [hx]
    show showWithExt avail os f sh ext.imdb_id = _
    unfold showWithExt
    rw [hb]
    rfl

/-- C4 witness: five items with the external-id lookup failing exactly for
item 3; the page still carries all five mapped items, and the failing item
degrades to its primary fields. -/
theorem trending_enrichment_isolation_witness :
    (get_trending_tv_series "week" 1 10 c4Trend c4Ext false gOmdbSearch
        gOmdbFetch =
      .ok (.ok { page := c4Resp.page.getD 1
                 total_pages := c4Resp.total_pages.getD 1
                 total_results := c4Resp.total_results.getD 0
                 results := (c4Resp.results.take 10).map
                   (processShow c4Ext false gOmdbSearch gOmdbFetch) })) ∧
    (∀ sh e, c4Ext sh.id = .error e →
      processShow c4Ext false gOmdbSearch gOmdbFetch sh =
        plainSeriesData sh none) ∧
    (∀ sh ext e, c4Ext sh.id = .ok ext →
      get_ratings none ext.imdb_id gOmdbSearch gOmdbFetch = .error e →
      processShow c4Ext false gOmdbSearch gOmdbFetch sh =
        plainSeriesData sh ext.imdb_id) ∧
    (∀ sh ext, c4Ext sh.id = .ok ext →
      (false && truthyStr ext.imdb_id) = false →
      processShow c4Ext false gOmdbSearch gOmdbFetch sh =
        plainSeriesData sh ext.imdb_id) :=
  trending_enrichment_isolation "week" 1 10 c4Trend c4Ext false gOmdbSearch
    gOmdbFetch c4Resp rfl rfl

/-- C5 counterexample: a search hit whose `Title` is the empty string
resolves by its id and differs case-insensitively from the query, yet the
returned block carries neither `original_query` nor `corrected_title` (the
empty corrected title is falsy). -/
theorem ratings_correction_empty_title_cex :
    get_ratings (some "Foo") none c5Search c5Fetch = .ok (some c5Block) ∧
    c5Block.original_query = none ∧ c5Block.corrected_title = none ∧
    pyLower "Foo" ≠ pyLower "" := by
  refine ⟨rfl, rfl, rfl, by decide⟩

/-- C5 (amended): with only a title, when the search finds a match (with a
truthy id), `get_ratings` resolves via the match's id, and the block carries
`original_query`/`corrected_title` exactly when the match's title is
non-empty and differs from the query under case-insensitive comparison. -/
theorem ratings_typo_correction_amended
    (t iid ct : String) (rest : List OmdbSearchResult)
    (os : String × Option Int → Except Unit OmdbSearchRaw)
    (of : OmdbQuery → Except Unit OmdbRaw)
    (raw : OmdbRaw) (b : RatingsBlock)
    (ht : t ≠ "")
    (hs : search_series t none os = .ok (⟨some iid, some ct⟩ :: rest))
    (hi : iid ≠ "")
    (hf : of (.byId iid) = .ok raw)
    (hr : raw.Response ≠ some "False")
    (hmk : mkRatings raw (some t) (some ct) = .ok b) :
    get_ratings (some t) none os of = .ok (some b) ∧
    ((ct ≠ "" ∧ pyLower t ≠ pyLower ct) →
      b.original_query = some t ∧ b.corrected_title = some ct) ∧
    (¬(ct ≠ "" ∧ pyLower t ≠ pyLower ct) →
      b.original_query = none ∧ b.corrected_title = none) ∧
    b.title = raw.Title ∧ b.imdb_id = raw.imdbID := by
  have hchain : get_ratings (some t) none os of = .ok (some b) := by
    rw [get_ratings_search_branch t ht os of, hs, ok_bind]
    simp only [correctionStep, correctionOf]
    rw [ok_bind, ratingsFinish_byId (some t) (some ct) iid hi of, hf]
    rw [omdbRespond_ok, if_neg hr, ok_bind]
    simp only [blockFromData]
    rw [hmk, ok_bind]
    rfl
  rcases mkRatings_ok_inv raw (some t) (some ct) b hmk with ⟨ir, ms, _, _, hb⟩
  subst hb
  refine ⟨hchain, ?_, ?_, ?_, ?_⟩
  · intro hc
    exact (addCorrection_some (baseBlock raw ir ms) t ct ht).1 hc
  · intro hc
    exact (addCorrection_some (baseBlock raw ir ms) t ct ht).2 hc
  · exact (addCorrection_fields (baseBlock raw ir ms) (some t) (some ct)).1
  · exact (addCorrection_fields (baseBlock raw ir ms) (some t)
      (some ct)).2.2.2

/-- C5 witness: a misspelled query corrected by search; both correction keys
are populated. -/
theorem ratings_typo_correction_amended_witness :
    get_ratings (some "Breaking Bed") none c5wSearch c5Fetch =
      .ok (some (addCorrection (baseBlock c5Data none none)
        (some "Breaking Bed") (some "Breaking Bad"))) ∧
    (("Breaking Bad" ≠ "" ∧
        pyLower "Breaking Bed" ≠ pyLower "Breaking Bad") →
      (addCorrection (baseBlock c5Data none none) (some "Breaking Bed")
          (some "Breaking Bad")).original_query = some "Breaking Bed" ∧
      (addCorrection (baseBlock c5Data none none) (some "Breaking Bed")
          (some "Breaking Bad")).corrected_title = some "Breaking Bad") ∧
    (¬("Breaking Bad" ≠ "" ∧
        pyLower "Breaking Bed" ≠ pyLower "Breaking Bad") →
      (addCorrection (baseBlock c5Data none none) (some "Breaking Bed")
          (some "Breaking Bad")).original_query = none ∧
      (addCorrection (baseBlock c5Data none none) (some "Breaking Bed")
          (some "Breaking Bad")).corrected_title = none) ∧
    (addCorrection (baseBlock c5Data none none) (some "Breaking Bed")
        (some "Breaking Bad")).title = c5Data.Title ∧
    (addCorrection (baseBlock c5Data none none) (some "Breaking Bed")
        (some "Breaking Bad")).imdb_id = c5Data.imdbID :=
  ratings_typo_correction_amended "Breaking Bed" "tt1" "Breaking Bad" []
    c5wSearch c5Fetch c5Data
    (addCorrection (baseBlock c5Data none none) (some "Breaking Bed")
      (some "Breaking Bad"))
    (by decide) rfl (by decide) rfl (by decide) rfl

/-- C9: an entirely absent `imdbRating` (as opposed to the `"N/A"` sentinel)
yields `imdb_rating = 0.0` (not null), and an absent `Metascore` yields
`metascore = 0` (not null). -/
theorem ratings_absent_fields_zero (iid : String)
    (os : String × Option Int → Except Unit OmdbSearchRaw)
    (of : OmdbQuery → Except Unit OmdbRaw) (raw : OmdbRaw)
    (hi : iid ≠ "") (hf : of (.byId iid) = .ok raw)
    (hr : raw.Response ≠ some "False")
    (hrat : raw.imdbRating = none) (hmet : raw.Metascore = none) :
    get_ratings none (some iid) os of =
      .ok (some (baseBlock raw (some 0) (some 0))) ∧
    (baseBlock raw (some 0) (some 0)).imdb_rating = some 0 ∧
    (baseBlock raw (some 0) (some 0)).metascore = some 0 := by
  refine ⟨?_, rfl, rfl⟩
  have h0 : get_ratings none (some iid) os of =
      omdbRespond (of (.byId iid)) >>= blockFromData none none :=
    ratingsFinish_byId none none iid hi of
  rw [h0, hf, omdbRespond_ok, if_neg hr, ok_bind]
  simp only [blockFromData]
  unfold mkRatings
  rw [hrat, hmet, imdbRatingField_none, ok_bind, metascoreField_none, ok_bind]
  rfl

/-- C9 witness: a record with both numeric fields absent maps to 0-valued
(not null) rating fields. -/
theorem ratings_absent_fields_zero_witness :
    get_ratings none (some "tt9") gOmdbSearch c9Fetch =
      .ok (some (baseBlock c9Data (some 0) (some 0))) ∧
    (baseBlock c9Data (some 0) (some 0)).imdb_rating = some 0 ∧
    (baseBlock c9Data (some 0) (some 0)).metascore = some 0 :=
  ratings_absent_fields_zero "tt9" gOmdbSearch c9Fetch c9Data (by decide) rfl
    (by decide) rfl rfl

/-- C10: with only a title and an empty secondary search, `get_ratings` does
not return the empty block immediately: it falls back to a direct by-title
lookup, returning empty only when that lookup reports no data (and
propagating its transport failures). -/
theorem ratings_title_fallback (t : String)
    (os : String × Option Int → Except Unit OmdbSearchRaw)
    (of : OmdbQuery → Except Unit OmdbRaw) (sraw : OmdbSearchRaw)
    (ht : t ≠ "") (hsr : os (t, none) = .ok sraw)
    (hempty : sraw.Response = some "False" ∨ sraw.Search = []) :
    (∀ raw, of (.byTitle t) = .ok raw →
      (raw.Response = some "False" →
        get_ratings (some t) none os of = .ok none) ∧
      (raw.Response ≠ some "False" →
        get_ratings (some t) none os of =
          (mkRatings raw (some t) none).map some)) ∧
    (of (.byTitle t) = .error () →
      get_ratings (some t) none os of = .error .transport) := by
  have hse : search_series t none os = .ok [] := by
    rw [search_series_ok t none os sraw hsr]
    rcases hempty with h | h
    · rw [if_pos h]
    · by_cases hresp : sraw.Response = some "False"
      · rw [if_pos hresp]
      · rw [if_neg hresp, h]
  have hmain : get_ratings (some t) none os of =
      omdbRespond (of (.byTitle t)) >>= blockFromData (some t) none := by
    rw [get_ratings_search_branch t ht os of, hse, ok_bind]
    simp only [correctionStep]
    rw [ok_bind]
    exact ratingsFinish_byTitle t ht none of
  constructor
  · intro raw hraw
    constructor
    · intro hfalse
      rw [hmain, hraw, omdbRespond_ok, if_pos hfalse, ok_bind]
      rfl
    · intro hrne
      rw [hmain, hraw, omdbRespond_ok, if_neg hrne, ok_bind]
      simp only [blockFromData]
      cases hm : mkRatings raw (some t) none with
      | error e => rfl
      | ok bb => rfl
  · intro herr
    rw [hmain, herr]
    rfl

/-- C10 witness: a missed search falls back to the by-title lookup, which
here reports data. -/
theorem ratings_title_fallback_witness :
    (∀ raw, c3Fetch (.byTitle "Foo") = .ok raw →
      (raw.Response = some "False" →
        get_ratings (some "Foo") none c10Search c3Fetch = .ok none) ∧
      (raw.Response ≠ some "False" →
        get_ratings (some "Foo") none c10Search c3Fetch =
          (mkRatings raw (some "Foo") none).map some)) ∧
    (c3Fetch (.byTitle "Foo") = .error () →
      get_ratings (some "Foo") none c10Search c3Fetch = .error .transport) :=
  ratings_title_fallback "Foo" c10Search c3Fetch ⟨some "False", []⟩
    (by decide) rfl (Or.inl rfl)

end RatingGrid
